import Mathlib

/-!
Shallow embedding of `src/parsing/lex_podcast.py` (repository
andreypomortsev/transcription) and proofs about the claims of its
specification.

Modelling conventions:
* Python exceptions are modelled by `Except PyErr`; a Python function that
  can raise returns `Except PyErr α`, one that cannot returns a plain value.
* Network and external-API effects (`requests.get`, the YouTube client's
  `execute`, mutagen's MP3 decoding) are modelled as explicit oracle
  functions passed in as parameters; the oracle's `Except.error` case
  models the library call raising.
* Python strings are Lean `String`s (ASCII fragment; `\w`, `\d` and `\s`
  from the `re` module are modelled by their ASCII parts, which covers
  every string the program and the claims mention).
* Machine floats (`get_duration`) are modelled as `ℚ`.
-/

namespace LexPodcast

/-- The Python exception classes that the source can raise or catch. -/
inductive PyErr where
  | requestException
  | attributeError
  | typeError
  | keyError
  | indexError
  | valueError
  | httpError
  | unboundLocalError
  | mutagenError
deriving DecidableEq, Repr

/-- Python values as they flow through the dynamically typed arguments of
`get_youtube_id` and `get_date_time` (a string, a number, or `None`). -/
inductive PyVal where
  | str (s : String)
  | int (n : Int)
  | pynone
deriving DecidableEq, Repr

/-- `isinstance(v, str)` -/
def PyVal.isStr : PyVal → Bool
  | .str _ => true
  | _ => false

/-- `datetime.date(year, month, day)` -/
structure Date where
  year : Nat
  month : Nat
  day : Nat
deriving DecidableEq, Repr

/-- `datetime.time(hour, minute, second)` -/
structure Time where
  hour : Nat
  minute : Nat
  second : Nat
deriving DecidableEq, Repr

/-- The heterogeneous pairs that `convert_to_timestamp` / `get_date_time`
return: `(None, None)`, the `(0, 0)` sentinel, or a `(date, time)` pair. -/
inductive TsPair where
  | nn
  | zz
  | dt (d : Date) (t : Time)
deriving DecidableEq, Repr

/-! ## The `datetime` model

`datetime.strptime(s, "%Y-%m-%d %H:%M:%S")` is implemented by CPython's
`_strptime` on top of a regular expression built from the format:
`%Y ↦ \d\d\d\d`, `%m ↦ 1[0-2]|0[1-9]|[1-9]`, `%d ↦ 3[01]|[12]\d|0[1-9]|[1-9]`,
`%H ↦ 2[0-3]|[0-1]\d|\d`, `%M ↦ [0-5]\d|\d`, `%S ↦ 6[0-1]|[0-5]\d|\d`,
a whitespace run in the format matches `\s+`, the literals `-` and `:`
match themselves, the match is anchored at the start and must consume the
whole input, and the parsed fields are then validated by the `datetime`
constructor (year 1..9999, day within the month, second ≤ 59; the field
regexes already bound month, hour and minute).  Because every numeric
field is followed by a non-digit (a literal, whitespace, or the end), the
regex's alternation never backtracks successfully across fields, so the
match is equivalent to the deterministic field parsers below, which try
the two-digit alternatives first exactly as the regex alternation does. -/

/-- The digit character for `n < 10` (`'0'` is code point 48). -/
def digitChar (n : Nat) : Char := Char.ofNat (48 + n)

/-- Numeric value of a digit character. -/
def dval (c : Char) : Nat := c.toNat - 48

/-- `%Y` : exactly four digits (`\d\d\d\d`). -/
def pY : List Char → Option (Nat × List Char)
  | a :: b :: c :: d :: rest =>
      if a.isDigit && b.isDigit && c.isDigit && d.isDigit then
        some (((dval a * 10 + dval b) * 10 + dval c) * 10 + dval d, rest)
      else none
  | _ => none

/-- `%m` : `1[0-2]|0[1-9]|[1-9]`. -/
def pM : List Char → Option (Nat × List Char)
  | a :: b :: rest =>
      if a = '1' && '0' ≤ b && b ≤ '2' then some (10 + dval b, rest)
      else if a = '0' && '1' ≤ b && b ≤ '9' then some (dval b, rest)
      else if '1' ≤ a && a ≤ '9' then some (dval a, b :: rest)
      else none
  | [a] => if '1' ≤ a && a ≤ '9' then some (dval a, []) else none
  | [] => none

/-- `%d` : `3[01]|[12]\d|0[1-9]|[1-9]`. -/
def pD : List Char → Option (Nat × List Char)
  | a :: b :: rest =>
      if a = '3' && '0' ≤ b && b ≤ '1' then some (30 + dval b, rest)
      else if ('1' ≤ a && a ≤ '2') && b.isDigit then some (dval a * 10 + dval b, rest)
      else if a = '0' && '1' ≤ b && b ≤ '9' then some (dval b, rest)
      else if '1' ≤ a && a ≤ '9' then some (dval a, b :: rest)
      else none
  | [a] => if '1' ≤ a && a ≤ '9' then some (dval a, []) else none
  | [] => none

/-- `%H` : `2[0-3]|[0-1]\d|\d`. -/
def pH : List Char → Option (Nat × List Char)
  | a :: b :: rest =>
      if a = '2' && '0' ≤ b && b ≤ '3' then some (20 + dval b, rest)
      else if ('0' ≤ a && a ≤ '1') && b.isDigit then some (dval a * 10 + dval b, rest)
      else if a.isDigit then some (dval a, b :: rest)
      else none
  | [a] => if a.isDigit then some (dval a, []) else none
  | [] => none

/-- `%M` : `[0-5]\d|\d`. -/
def pMin : List Char → Option (Nat × List Char)
  | a :: b :: rest =>
      if ('0' ≤ a && a ≤ '5') && b.isDigit then some (dval a * 10 + dval b, rest)
      else if a.isDigit then some (dval a, b :: rest)
      else none
  | [a] => if a.isDigit then some (dval a, []) else none
  | [] => none

/-- `%S` : `6[0-1]|[0-5]\d|\d` (61 is allowed by the regex for leap
seconds; the `datetime` constructor then rejects seconds above 59). -/
def pS : List Char → Option (Nat × List Char)
  | a :: b :: rest =>
      if a = '6' && '0' ≤ b && b ≤ '1' then some (60 + dval b, rest)
      else if ('0' ≤ a && a ≤ '5') && b.isDigit then some (dval a * 10 + dval b, rest)
      else if a.isDigit then some (dval a, b :: rest)
      else none
  | [a] => if a.isDigit then some (dval a, []) else none
  | [] => none

/-- A literal character of the format. -/
def pLit (c : Char) : List Char → Option (List Char)
  | a :: rest => if a = c then some rest else none
  | [] => none

/-- `\s+` : one or more whitespace characters (ASCII part of `\s`). -/
def pWs : List Char → Option (List Char)
  | a :: rest => if a.isWhitespace then some (rest.dropWhile Char.isWhitespace) else none
  | [] => none

/-- The anchored, whole-string match of the `_strptime` regex for the
format `"%Y-%m-%d %H:%M:%S"`. -/
def strptimeMatch (l : List Char) : Option (Nat × Nat × Nat × Nat × Nat × Nat) := do
  let (y, l) ← pY l
  let l ← pLit '-' l
  let (m, l) ← pM l
  let l ← pLit '-' l
  let (d, l) ← pD l
  let l ← pWs l
  let (h, l) ← pH l
  let l ← pLit ':' l
  let (mi, l) ← pMin l
  let l ← pLit ':' l
  let (s, l) ← pS l
  if l.isEmpty then some (y, m, d, h, mi, s) else none

/-- Gregorian leap year, as `calendar.isleap` / `datetime` use it. -/
def isLeapYear (y : Nat) : Bool := y % 4 = 0 && (y % 100 ≠ 0 || y % 400 = 0)

/-- Days in a month, as the `datetime` constructor validates them. -/
def daysInMonth (y m : Nat) : Nat :=
  if m = 2 then (if isLeapYear y then 29 else 28)
  else if m = 4 || m = 6 || m = 9 || m = 11 then 30
  else 31

/-- The range checks of the `datetime.datetime` constructor. -/
def datetimeValid (y m d h mi s : Nat) : Bool :=
  1 ≤ y && y ≤ 9999 && 1 ≤ m && m ≤ 12 && 1 ≤ d && d ≤ daysInMonth y m
    && h ≤ 23 && mi ≤ 59 && s ≤ 59

/-- `datetime.strptime(date_str, "%Y-%m-%d %H:%M:%S")`, returning the
`.date()` / `.time()` components, or `none` for the `ValueError` cases
(no regex match, trailing input, or constructor range check failure). -/
def strptimeYmdHms (date_str : String) : Option (Date × Time) :=
  match strptimeMatch date_str.data with
  | some (y, m, d, h, mi, s) =>
      if datetimeValid y m d h mi s then some (⟨y, m, d⟩, ⟨h, mi, s⟩) else none
  | none => none

/-- `convert_to_timestamp` (lex_podcast.py:198-227): parse with
`datetime.strptime`, return `(timestamp.date(), timestamp.time())`; the
`except ValueError` branch logs and returns `(0, 0)`. -/
def convert_to_timestamp (date_str : String) : TsPair :=
  match strptimeYmdHms date_str with
  | some (date, time) => .dt date time
  | none => .zz

/-- Two-digit zero-padded rendering of `n ≤ 99`. -/
def pad2 (n : Nat) : List Char := [digitChar (n / 10), digitChar (n % 10)]

/-- Four-digit zero-padded rendering of `n ≤ 9999`. -/
def pad4 (n : Nat) : List Char :=
  [digitChar (n / 1000), digitChar (n / 100 % 10), digitChar (n / 10 % 10), digitChar (n % 10)]

/-- The character list of `strftime("%Y-%m-%d %H:%M:%S")` on a datetime
with the given date and time components (each field zero-padded). -/
def fmtList (d : Date) (t : Time) : List Char :=
  pad4 d.year ++ '-' :: pad2 d.month ++ '-' :: pad2 d.day
    ++ ' ' :: pad2 t.hour ++ ':' :: pad2 t.minute ++ ':' :: pad2 t.second

/-- `datetime.strftime("%Y-%m-%d %H:%M:%S")` for a datetime with the given
date and time components, i.e. the canonical rendering of the format. -/
def strftimeYmdHms (d : Date) (t : Time) : String := ⟨fmtList d t⟩

/-! ## `get_youtube_id` (lex_podcast.py:230-263)

`re.search(r"(?<=v=)[\w-]+", youtube_url)`: the first position whose two
preceding characters are `v=` and whose character is in the class `[\w-]`
starts the match; the match is the maximal run of class characters from
there (`+` is greedy and whatever follows the run is never re-examined,
since the pattern ends at the run). `\w` is modelled by its ASCII part. -/

/-- The character class `[\w-]` (ASCII part). -/
def idChar (c : Char) : Bool := c.isAlphanum || c = '_' || c = '-'

/-- `re.search(r"(?<=v=)[\w-]+", s)`: scan the match positions left to
right; at each, the two preceding characters must be `v=` and the position
itself must hold a class character, and the match is the maximal
class-character run from there.  A scan step looks at a character `a` and
the two characters after it; fewer than two characters left means no
further position can satisfy the lookbehind. -/
def searchVeq : List Char → Option (List Char)
  | [] => none
  | a :: rest =>
      match rest with
      | b :: c :: _ =>
          if a = 'v' && b = '=' && idChar c then some (rest.tail.takeWhile idChar)
          else searchVeq rest
      | _ => none

/-- `get_youtube_id` : `None` for non-string input; otherwise the regex
search result, or `None` when there is no match. -/
def get_youtube_id (youtube_url : PyVal) : Option String :=
  match youtube_url with
  | .str s => (searchVeq s.data).map String.mk
  | _ => none

/-! ## `get_duration` (lex_podcast.py:94-140)

The network and the MP3 metadata decoder are oracles; the second component
of the result records the list of URLs fetched with `requests.get`, so
that "performs no network call" is expressible.  `round(x, 2)` on the
`ℚ`-modelled length. -/

/-- The bytes of an HTTP response body. -/
def Bytes := List Nat

/-- `round(q, 2)` (float rounding modelled on `ℚ`). -/
def round2 (q : ℚ) : ℚ := (round (q * 100) : ℤ) / 100

/-- `mp3_url.lower().endswith(".mp3")` (ASCII lowering). -/
def lowerEndsWithMp3 (mp3_url : String) : Bool :=
  ".mp3".data.isSuffixOf (mp3_url.data.map Char.toLower)

/-- `get_duration` : reject URLs without a (case-insensitively compared)
`.mp3` extension with `0.0` before any network call; otherwise fetch the
bytes and decode the length, mapping a `RequestException` of the fetch and
any decoding exception to `0.0`. -/
def get_duration (net : String → Except PyErr Bytes)
    (mp3meta : Bytes → Except PyErr ℚ) (mp3_url : String) : ℚ × List String :=
  if !(lowerEndsWithMp3 mp3_url) then (0, [])
  else
    match net mp3_url with
    | .error _ => (0, [mp3_url])
    | .ok content =>
        match mp3meta content with
        | .error _ => (0, [mp3_url])
        | .ok len => (round2 len, [mp3_url])

/-! ## The Audio-Locator chain (lex_podcast.py:266-341)

An HTTP response carries its status code and, for the one page whose
content matters to this chain, the `powerpress_link_pinw` anchor of the
parsed page: `none` models `soup.find` returning `None` (subscripting it
raises `TypeError`, which the source catches), `some none` an anchor
without an `href` attribute (`KeyError`, which the source does not catch),
and `some (some href)` the anchor's target. -/

structure HttpResp where
  status_code : Nat
  powerpress : Option (Option String)
deriving DecidableEq, Repr

/-- `check_url_response` : `requests.get(url, timeout=10)` is not guarded,
so an exception of the network call propagates; a `200` response returns
the URL, anything else returns `None`. -/
def check_url_response (net : String → Except PyErr HttpResp) (url : String) :
    Except PyErr (Option String) :=
  match net url with
  | .error e => .error e
  | .ok response => if response.status_code = 200 then .ok (some url) else .ok none

/-- `get_audio_file_url` : the `except RequestException` handler logs
`response.status_code`, but `response` is unbound when `requests.get`
raised, so the handler itself raises `UnboundLocalError`.  A missing
anchor is a caught `TypeError` (`None`); an anchor without `href` raises
an uncaught `KeyError`; otherwise the target is validated once more with
`check_url_response`. -/
def get_audio_file_url (net : String → Except PyErr HttpResp) (podcast_url : String) :
    Except PyErr (Option String) :=
  match net podcast_url with
  | .error _ => .error .unboundLocalError
  | .ok response =>
      match response.powerpress with
      | none => .ok none
      | some none => .error .keyError
      | some (some audio_file_url) => check_url_response net audio_file_url

/-- The fixed thumbnail naming-convention pattern
`^https:\/\/lexfridman\.com\/files\/thumbs_ai_podcast\/(.*)\.png$` via
`re.search`: anchored on both sides, `(.*)` greedy and unable to match a
newline.  (The `$` of the `re` module would also tolerate one trailing
newline; URLs with newlines never arise here and are not modelled.) -/
def thumbPattern (thumbnail_url : String) : Option String :=
  let pre := "https://lexfridman.com/files/thumbs_ai_podcast/".data
  let l := thumbnail_url.data
  let after := l.drop pre.length
  if pre.isPrefixOf l && ".png".data.isSuffixOf after
      && (after.take (after.length - 4)).all (· ≠ '\n') then
    some ⟨after.take (after.length - 4)⟩
  else none

/-- One candidate URL of the naming convention. -/
def audioCandidate (p file_name : String) : String :=
  "https://content.blubrry.com/takeituneasy/" ++ p ++ "_" ++ file_name ++ ".mp3"

/-- The `for prefix in prefixes` probe loop of `get_audio_name`: the first
candidate whose probe returns a truthy value (a non-empty string) is
returned; a probe's exception propagates. -/
def probeLoop (net : String → Except PyErr HttpResp) (file_name : String) :
    List String → Except PyErr (Option String)
  | [] => .ok none
  | p :: rest =>
      match check_url_response net (audioCandidate p file_name) with
      | .error e => .error e
      | .ok (some s) =>
          if s = "" then probeLoop net file_name rest
          else .ok (some (audioCandidate p file_name))
      | .ok none => probeLoop net file_name rest

/-- `get_audio_name` : try the naming-convention candidates in order
(`lex_ai`, `mit_ai`, `lex_audio`) when the thumbnail matches the pattern,
then fall back to scraping the detail page. -/
def get_audio_name (net : String → Except PyErr HttpResp)
    (thumbnail_url podcast_url : String) : Except PyErr (Option String) :=
  match thumbPattern thumbnail_url with
  | some file_name =>
      match probeLoop net file_name ["lex_ai", "mit_ai", "lex_audio"] with
      | .error e => .error e
      | .ok (some u) => .ok (some u)
      | .ok none => get_audio_file_url net podcast_url
  | none => get_audio_file_url net podcast_url

/-! ## `get_date_time` (lex_podcast.py:143-195)

The YouTube Data API client is built with `developerKey=key`, the module
global loaded from the environment — not with the `api_key` parameter,
which is only used in the `isinstance` check.  The client/`execute` pair
is an oracle taking the key the client was built with and the video id,
and returning the `publishedAt` strings of the response's items (a raised
`HttpError` / network error is the oracle's `error` case).  Crucially,
`request.execute()` sits before the `try:` block, so only `KeyError` /
`IndexError` from the extraction are ever caught; the `except HttpError`
handler is unreachable. -/

/-- Exactly two digits. -/
def p2 : List Char → Option (Nat × List Char)
  | a :: b :: rest =>
      if a.isDigit && b.isDigit then some (dval a * 10 + dval b, rest) else none
  | _ => none

/-- `datetime.fromisoformat`, modelled for the whole-second forms that this
program can feed it: `YYYY-MM-DD`, optionally followed by a one-character
separator and `HH:MM:SS`, optionally followed by a `±HH:MM` offset (the
shape produced by replacing the API's trailing `Z` with `+00:00`).  Any
other shape, or fields rejected by the `datetime` constructor, is a
`ValueError`.  The offset does not change the stored fields, which is what
the subsequent naive `strftime` reads back. -/
def fromisoformat (s : String) : Except PyErr (Date × Time) :=
  let parsed : Option (Nat × Nat × Nat × Nat × Nat × Nat) := do
    let (y, l) ← pY s.data
    let l ← pLit '-' l
    let (m, l) ← p2 l
    let l ← pLit '-' l
    let (d, l) ← p2 l
    match l with
    | [] => some (y, m, d, 0, 0, 0)
    | _sep :: lt => do
        let (h, lt) ← p2 lt
        let lt ← pLit ':' lt
        let (mi, lt) ← p2 lt
        let lt ← pLit ':' lt
        let (sec, lt) ← p2 lt
        match lt with
        | [] => some (y, m, d, h, mi, sec)
        | sgn :: lo => do
            if sgn = '+' || sgn = '-' then
              let (_, lo) ← p2 lo
              let lo ← pLit ':' lo
              let (_, lo) ← p2 lo
              if lo.isEmpty then some (y, m, d, h, mi, sec) else none
            else none
  match parsed with
  | some (y, m, d, h, mi, sec) =>
      if datetimeValid y m d h mi sec then .ok (⟨y, m, d⟩, ⟨h, mi, sec⟩)
      else .error .valueError
  | none => .error .valueError

/-- `get_date_time` : wrong argument types return `(None, None)`; the API
call's exception propagates (the `except HttpError` handler is after an
uncovered `execute()`); zero result items is a caught `IndexError`
returning `(None, None)`; otherwise the `publishedAt` instant is
re-rendered and decomposed by `convert_to_timestamp`. -/
def get_date_time (gkey : PyVal) (api : PyVal → String → Except PyErr (List String))
    (youtube_video_id api_key : PyVal) : Except PyErr TsPair :=
  match youtube_video_id, api_key with
  | .str vid, .str _ =>
      match api gkey vid with
      | .error e => .error e
      | .ok items =>
          match items with
          | [] => .ok .nn
          | upload_date :: _ =>
              match fromisoformat (upload_date.replace "Z" "+00:00") with
              | .error e => .error e
              | .ok (d, t) => .ok (convert_to_timestamp (strftimeYmdHms d t))
  | _, _ => .ok .nn

/-! ## `get_description` (lex_podcast.py:44-91)

The page model keeps what the function reads: the `entry-content` div
(absent when `soup.find` returns `None`), the text of its `<p>` elements,
and the text of its first `<span>` (absent when `find` returns `None`). -/

structure EntryDiv where
  pTexts : List String
  spanText : Option String
deriving DecidableEq, Repr

structure PageResp where
  status_code : Nat
  entry_content : Option EntryDiv
deriving DecidableEq, Repr

/-- First index of `needle` as a sublist of `hay` (`str.index` semantics). -/
def substrFind (hay needle : List Char) : Option Nat :=
  match hay with
  | [] => if needle.isEmpty then some 0 else none
  | _ :: t =>
      if needle.isPrefixOf hay then some 0
      else (substrFind t needle).map (· + 1)

/-- `needle in hay` for strings. -/
def pyContains (hay needle : String) : Bool := (substrFind hay.data needle.data).isSome

/-- Evaluating `response.status_code in response.status_code.ok`: an `int`
has no attribute `ok`, so this raises `AttributeError` whenever it runs. -/
def intMemberOk (_statusCode : Nat) : Except PyErr Bool := .error .attributeError

/-- The body of `get_description`'s `try:` block, with the exceptions it
can raise: `AttributeError` when the div or the span is missing,
`ValueError` from `.index(" Please ")` when `"Please"` occurs but
`" Please "` does not. -/
def descrTry (response : PageResp) : Except PyErr String :=
  match response.entry_content with
  | none => .error .attributeError
  | some text_div =>
      if text_div.pTexts.length > 2 then
        let third := text_div.pTexts.getD 2 ""
        if pyContains third "Please" then
          match substrFind third.data " Please ".data with
          | some indx => .ok ⟨third.data.take indx⟩
          | none => .error .valueError
        else .ok third
      else
        match text_div.spanText with
        | none => .error .attributeError
        | some t => .ok t

/-- `get_description` : the initial `requests.get` is not guarded, so its
exception propagates; then the status check evaluates
`response.status_code.ok` and raises `AttributeError`; the rest of the
function (kept for fidelity) would wrap `descrTry` in a catch-all
returning the empty string. -/
def get_description (net : String → Except PyErr PageResp) (url : String) :
    Except PyErr String :=
  match net url with
  | .error e => .error e
  | .ok response =>
      match intMemberOk response.status_code with
      | .error e => .error e
      | .ok isMember =>
          if !isMember then .ok ""
          else
            match descrTry response with
            | .ok result => .ok result
            | .error _ => .ok ""

/-! ## The Episode Assembler `parse_the_data` (lex_podcast.py:380-427)
and the Batch Collector `main` (lex_podcast.py:468-476)

A listing entry exposes the four extractions the assembler performs on the
BeautifulSoup element (each can raise: missing links, `select_one`
returning `None`, a missing `src`).  The five resolver calls are oracle
functions, so the claims quantify over every resolver behaviour, the
actual (also modelled) resolvers included.  The `except Exception` handler
logs `error` and `title`; when the failure happened before `title` was
assigned, evaluating `title` in the handler raises `UnboundLocalError`,
which is after the extraction of the two links and of the title — i.e.
never once a resolver has been reached. -/

/-- A record's `date` cell: `None`, the `0` of the `(0, 0)` sentinel, or a
date. -/
inductive PyDate where
  | absent
  | zero
  | val (d : Date)
deriving DecidableEq, Repr

/-- A record's `time` cell. -/
inductive PyTime where
  | absent
  | zero
  | val (t : Time)
deriving DecidableEq, Repr

/-- `date, time = get_date_time(...)` : destructuring the returned pair. -/
def destructTs : TsPair → PyDate × PyTime
  | .nn => (.absent, .absent)
  | .zz => (.zero, .zero)
  | .dt d t => (.val d, .val t)

/-- The 9-tuple written to the CSV; `none` / `.absent` model Python's
`None` in the corresponding cell. -/
structure Record where
  title : Option String
  guest : Option String
  description : Option String
  duration : Option ℚ
  youtube_url : Option String
  audio_file_url : Option String
  thumbnail_url : Option String
  date : PyDate
  time : PyTime
deriving DecidableEq, Repr

/-- `tuple(None for _ in range(9))` — the all-absent sentinel record. -/
def sentinelRecord : Record :=
  ⟨none, none, none, none, none, none, none, .absent, .absent⟩

/-- One listing entry, as the four direct extractions the assembler
performs on it (`episode.select(...)`, `select_one(".vid-title a").text`,
`select_one(".vid-person").text`, `select_one(".thumb-youtube img")["src"]`),
each possibly raising. -/
structure Entry where
  links : Except PyErr (String × String)
  title : Except PyErr String
  guest : Except PyErr String
  thumb : Except PyErr String

/-- The resolvers the assembler invokes, as oracles over their actual
argument types (`get_duration` receives the possibly-`None` audio URL,
`get_date_time` the possibly-`None` video id together with the global
key). -/
structure Resolvers where
  description : String → Except PyErr String
  audio_name : String → String → Except PyErr (Option String)
  duration : Option String → Except PyErr ℚ
  youtube_id : String → Except PyErr (Option String)
  date_time : Option String → Except PyErr TsPair

/-- The body of `parse_the_data`'s `try:` block after the two links and
the title have been extracted. -/
def parse_body (R : Resolvers) (ep : Entry)
    (youtube_url podcast_page title : String) : Except PyErr Record := do
  let guest ← ep.guest
  let thumbnail_url ← ep.thumb
  let description ← R.description podcast_page
  let audio_file_url ← R.audio_name thumbnail_url podcast_page
  let duration ← R.duration audio_file_url
  let youtube_video_id ← R.youtube_id youtube_url
  let dtp ← R.date_time youtube_video_id
  let (date, time) := destructTs dtp
  pure ⟨some title, some guest, some description, some duration, some youtube_url,
    audio_file_url, some thumbnail_url, date, time⟩

/-- `parse_the_data` : everything runs under `try: ... except Exception`,
whose handler logs the episode title and returns the sentinel; if the
failure precedes the binding of `title`, the handler itself raises
`UnboundLocalError` evaluating `title`. -/
def parse_the_data (R : Resolvers) (ep : Entry) : Except PyErr Record :=
  match ep.links with
  | .error _ => .error .unboundLocalError
  | .ok (youtube_url, podcast_page) =>
      match ep.title with
      | .error _ => .error .unboundLocalError
      | .ok title =>
          match parse_body R ep youtube_url podcast_page title with
          | .ok record => .ok record
          | .error _ => .ok sentinelRecord

/-- The accumulator built by `set(map(parse_the_data, episodes))`:
Python's set constructor folds insertion over the produced records. -/
def accumulate (records : List Record) : Finset Record :=
  records.foldl (fun s r => insert r s) ∅

/-- `main`'s data pipeline up to the CSV sink: parse every episode (an
uncaught exception of one aborts the run) and collect the records into
the deduplicating set. -/
def main_data (R : Resolvers) (episodes : List Entry) : Except PyErr (Finset Record) :=
  (episodes.mapM (parse_the_data R)).map accumulate

/-! ## Spec-side input characterizations and concrete oracles -/

/-- The spec's "string in the exact format YYYY-MM-DD HH:MM:SS denoting a
valid date-time": nineteen characters, zero-padded digit fields, the
literal separators, and field values the `datetime` constructor accepts. -/
def specExactFormat (str : String) : Bool :=
  match str.data with
  | [y1, y2, y3, y4, da1, m1, m2, da2, d1, d2, sp, h1, h2, c1, n1, n2, c2, s1, s2] =>
      y1.isDigit && y2.isDigit && y3.isDigit && y4.isDigit &&
      m1.isDigit && m2.isDigit && d1.isDigit && d2.isDigit &&
      h1.isDigit && h2.isDigit && n1.isDigit && n2.isDigit &&
      s1.isDigit && s2.isDigit &&
      da1 = '-' && da2 = '-' && sp = ' ' && c1 = ':' && c2 = ':' &&
      datetimeValid (((dval y1 * 10 + dval y2) * 10 + dval y3) * 10 + dval y4)
        (dval m1 * 10 + dval m2) (dval d1 * 10 + dval d2)
        (dval h1 * 10 + dval h2) (dval n1 * 10 + dval n2) (dval s1 * 10 + dval s2)
  | _ => false

/-- The spec's "ISO-8601 string with a Z suffix" for given components:
`YYYY-MM-DDTHH:MM:SSZ`. -/
def isoZ (y m d h mi s : Nat) : String :=
  ⟨pad4 y ++ '-' :: pad2 m ++ '-' :: pad2 d ++ 'T' :: pad2 h
    ++ ':' :: pad2 mi ++ ':' :: pad2 s ++ ['Z']⟩

/-- Whether a character list ends in `v=` — a prefix ending so would place
an earlier marker match right before an appended `v=<token>`. -/
def lastTwoVeq : List Char → Bool
  | [a, b] => a = 'v' && b = '='
  | _ :: rest => lastTwoVeq rest
  | [] => false

/-- Concrete network oracle whose every call raises a request exception. -/
def netDown : String → Except PyErr HttpResp := fun _ => .error .requestException

/-- Concrete byte-fetch oracle whose every call raises. -/
def netBytesFail : String → Except PyErr Bytes := fun _ => .error .requestException

/-- Concrete MP3 decoder oracle whose every call raises. -/
def mp3metaFail : Bytes → Except PyErr ℚ := fun _ => .error .mutagenError

/-- Concrete API oracle returning one well-formed item. -/
def apiOneItem : PyVal → String → Except PyErr (List String) :=
  fun _ _ => .ok ["2023-06-15T13:45:30Z"]

/-- A concrete listing entry whose own extractions all succeed. -/
def entryW : Entry :=
  ⟨.ok ("https://y", "https://p"), .ok "Title", .ok "Guest", .ok "https://t"⟩

/-- Concrete resolvers two of which raise. -/
def resolversW : Resolvers :=
  ⟨fun _ => .error .attributeError, fun _ _ => .ok none,
   fun _ => .error .attributeError, fun _ => .ok none, fun _ => .ok .nn⟩

/-! ## Helper lemmas -/

/-- Membership in the set built by folding insertion (the `set(...)`
constructor) over a list. -/
lemma mem_foldl_insert (l : List Record) (s : Finset Record) (x : Record) :
    x ∈ l.foldl (fun acc r => insert r acc) s ↔ x ∈ s ∨ x ∈ l := by
  induction l generalizing s with
  | nil => simp
  | cons a t ih =>
      simp only [List.foldl_cons, ih, Finset.mem_insert, List.mem_cons]
      tauto

/-- `some a >>= f` reduces. -/
lemma optBind_some {α β : Type} (a : α) (f : α → Option β) : (some a >>= f) = f a := rfl

/-- `none >>= f` reduces. -/
lemma optBind_none {α β : Type} (f : α → Option β) :
    ((none : Option α) >>= f) = none := rfl

lemma digitChar_isDigit {n : Nat} (h : n < 10) : (digitChar n).isDigit = true := by
  interval_cases n <;> decide

lemma dval_digitChar {n : Nat} (h : n < 10) : dval (digitChar n) = n := by
  interval_cases n <;> decide

lemma digit_toNat_bounds (c : Char) (h : c.isDigit = true) :
    48 ≤ c.toNat ∧ c.toNat ≤ 57 := by
  simp [Char.isDigit] at h
  exact h

lemma dval_lt_ten (c : Char) (h : c.isDigit = true) : dval c < 10 := by
  obtain ⟨h1, h2⟩ := digit_toNat_bounds c h
  unfold dval
  omega

lemma digitChar_dval (c : Char) (h : c.isDigit = true) : digitChar (dval c) = c := by
  obtain ⟨h1, h2⟩ := digit_toNat_bounds c h
  unfold digitChar dval
  rw [show 48 + (c.toNat - 48) = c.toNat by omega]
  exact Char.ofNat_toNat c

lemma pY_digits (y : Nat) (hy : y ≤ 9999) (rest : List Char) :
    pY (digitChar (y / 1000) :: digitChar (y / 100 % 10) :: digitChar (y / 10 % 10)
      :: digitChar (y % 10) :: rest) = some (y, rest) := by
  have h1 : y / 1000 < 10 := by omega
  have h2 : y / 100 % 10 < 10 := Nat.mod_lt _ (by norm_num)
  have h3 : y / 10 % 10 < 10 := Nat.mod_lt _ (by norm_num)
  have h4 : y % 10 < 10 := Nat.mod_lt _ (by norm_num)
  simp [pY, digitChar_isDigit, h1, h2, h3, h4, dval_digitChar]
  omega

lemma pM_digits (m : Nat) (hm1 : 1 ≤ m) (hm2 : m ≤ 12) (rest : List Char) :
    pM (digitChar (m / 10) :: digitChar (m % 10) :: rest) = some (m, rest) := by
  interval_cases m <;> rfl

lemma pD_digits (d : Nat) (hd1 : 1 ≤ d) (hd2 : d ≤ 31) (rest : List Char) :
    pD (digitChar (d / 10) :: digitChar (d % 10) :: rest) = some (d, rest) := by
  interval_cases d <;> rfl

lemma pH_digits (h : Nat) (hh : h ≤ 23) (rest : List Char) :
    pH (digitChar (h / 10) :: digitChar (h % 10) :: rest) = some (h, rest) := by
  interval_cases h <;> rfl

lemma pMin_digits (mi : Nat) (hmi : mi ≤ 59) (rest : List Char) :
    pMin (digitChar (mi / 10) :: digitChar (mi % 10) :: rest) = some (mi, rest) := by
  interval_cases mi <;> rfl

lemma pS_digits (s : Nat) (hs : s ≤ 59) (rest : List Char) :
    pS (digitChar (s / 10) :: digitChar (s % 10) :: rest) = some (s, rest) := by
  interval_cases s <;> rfl

lemma pLit_cons (c : Char) (l : List Char) : pLit c (c :: l) = some l := by
  simp [pLit]

lemma pWs_space_digit (n : Nat) (hn : n < 10) (l : List Char) :
    pWs (' ' :: digitChar n :: l) = some (digitChar n :: l) := by
  interval_cases n <;> rfl

lemma pWs_upperT (l : List Char) : pWs ('T' :: l) = none := rfl

/-- The strptime regex accepts the canonical rendering of in-range
components and recovers exactly those components. -/
lemma strptimeMatch_fmtList (y m d h mi s : Nat) (hy : y ≤ 9999)
    (hm1 : 1 ≤ m) (hm2 : m ≤ 12) (hd1 : 1 ≤ d) (hd2 : d ≤ 31)
    (hh : h ≤ 23) (hmi : mi ≤ 59) (hs : s ≤ 59) :
    strptimeMatch (fmtList ⟨y, m, d⟩ ⟨h, mi, s⟩) = some (y, m, d, h, mi, s) := by
  have hh10 : h / 10 < 10 := by omega
  simp only [fmtList, pad4, pad2, List.cons_append, List.nil_append]
  simp only [strptimeMatch, optBind_some, pY_digits y hy, pLit_cons,
    pM_digits m hm1 hm2, pD_digits d hd1 hd2, pWs_space_digit (h / 10) hh10,
    pH_digits h hh, pMin_digits mi hmi, pS_digits s hs,
    List.isEmpty_nil, if_true]

/-- `daysInMonth` never exceeds 31. -/
lemma daysInMonth_le_31 (y m : Nat) : daysInMonth y m ≤ 31 := by
  unfold daysInMonth
  split_ifs <;> norm_num

/-- `convert_to_timestamp` decomposes the canonical rendering of any valid
date-time into exactly its components. -/
lemma convert_fmt (y m d h mi s : Nat) (hvalid : datetimeValid y m d h mi s = true) :
    convert_to_timestamp (strftimeYmdHms ⟨y, m, d⟩ ⟨h, mi, s⟩) = .dt ⟨y, m, d⟩ ⟨h, mi, s⟩ := by
  have hb := hvalid
  simp only [datetimeValid, Bool.and_eq_true, decide_eq_true_eq] at hb
  obtain ⟨⟨⟨⟨⟨⟨⟨⟨hy1, hy2⟩, hm1⟩, hm2⟩, hd1⟩, hd2⟩, hh⟩, hmi⟩, hs⟩ := hb
  have hd31 : d ≤ 31 := le_trans hd2 (daysInMonth_le_31 y m)
  have hmatch : strptimeYmdHms (strftimeYmdHms ⟨y, m, d⟩ ⟨h, mi, s⟩) =
      some (⟨y, m, d⟩, ⟨h, mi, s⟩) := by
    unfold strptimeYmdHms strftimeYmdHms
    rw [show (⟨fmtList ⟨y, m, d⟩ ⟨h, mi, s⟩⟩ : String).data = fmtList ⟨y, m, d⟩ ⟨h, mi, s⟩
      from rfl]
    rw [strptimeMatch_fmtList y m d h mi s hy2 hm1 hm2 hd1 hd31 hh hmi hs]
    simp [hvalid]
  unfold convert_to_timestamp
  rw [hmatch]

/-- The maximal class-character run of `t ++ suf` is `t` when every
character of `t` is in the class and `suf` does not start with one. -/
lemma takeWhile_append_stop (t suf : List Char) (ht : t.all idChar = true)
    (hsuf : ∀ c, suf.head? = some c → idChar c = false) :
    (t ++ suf).takeWhile idChar = t := by
  induction t with
  | nil =>
      cases suf with
      | nil => rfl
      | cons c cs =>
          have hc := hsuf c rfl
          simp [List.takeWhile, hc]
  | cons a t ih =>
      simp only [List.all_cons, Bool.and_eq_true] at ht
      simp [List.takeWhile, ht.1, ih ht.2]

/-- Scanning past a prefix with no marker match and not ending in `v=`
finds the match at the appended explicit marker. -/
lemma searchVeq_append (L : List Char) (c : Char) (r : List Char)
    (hL : searchVeq L = none) (hlast : lastTwoVeq L = false) (hc : idChar c = true) :
    searchVeq (L ++ 'v' :: '=' :: c :: r) = some ((c :: r).takeWhile idChar) := by
  induction L with
  | nil => simp [searchVeq, hc]
  | cons a L ih =>
      cases L with
      | nil => simp [searchVeq, hc]
      | cons b L2 =>
          cases L2 with
          | nil =>
              simp only [lastTwoVeq] at hlast
              simp [searchVeq, hc, hlast]
          | cons c2 L3 =>
              simp only [searchVeq] at hL
              cases hcond : (a = 'v' && b = '=' && idChar c2) with
              | true =>
                  rw [hcond] at hL
                  simp at hL
              | false =>
                  rw [hcond] at hL
                  simp only [Bool.false_eq_true, if_false] at hL
                  have hlast2 : lastTwoVeq (b :: c2 :: L3) = false := hlast
                  have hrec := ih hL hlast2
                  simp only [List.cons_append] at hrec ⊢
                  simp only [searchVeq]
                  rw [hcond]
                  simp only [Bool.false_eq_true, if_false]
                  exact hrec

/-- Every string accepted by the exact-format check is the canonical
rendering of in-range components. -/
lemma specExactFormat_decomp (str : String) (hf : specExactFormat str = true) :
    ∃ y m d h mi s, datetimeValid y m d h mi s = true ∧
      str = strftimeYmdHms ⟨y, m, d⟩ ⟨h, mi, s⟩ := by
  unfold specExactFormat at hf
  split at hf
  case h_2 => exact absurd hf (by simp)
  case h_1 y1 y2 y3 y4 da1 m1 m2 da2 d1 d2 sp h1 h2 c1 n1 n2 c2 s1 s2 heq =>
    simp only [Bool.and_eq_true, decide_eq_true_eq] at hf
    obtain ⟨hf, hvalid⟩ := hf
    obtain ⟨hf, hc2⟩ := hf
    obtain ⟨hf, hc1⟩ := hf
    obtain ⟨hf, hsp⟩ := hf
    obtain ⟨hf, hda2⟩ := hf
    obtain ⟨hf, hda1⟩ := hf
    obtain ⟨hf, hds2⟩ := hf
    obtain ⟨hf, hds1⟩ := hf
    obtain ⟨hf, hdn2⟩ := hf
    obtain ⟨hf, hdn1⟩ := hf
    obtain ⟨hf, hdh2⟩ := hf
    obtain ⟨hf, hdh1⟩ := hf
    obtain ⟨hf, hdd2⟩ := hf
    obtain ⟨hf, hdd1⟩ := hf
    obtain ⟨hf, hdm2⟩ := hf
    obtain ⟨hf, hdm1⟩ := hf
    obtain ⟨hf, hdy4⟩ := hf
    obtain ⟨hf, hdy3⟩ := hf
    obtain ⟨hdy1, hdy2⟩ := hf
    subst hda1
    subst hda2
    subst hsp
    subst hc1
    subst hc2
    refine ⟨_, _, _, _, _, _, hvalid, ?_⟩
    have hstr : str = ⟨[y1, y2, y3, y4, '-', m1, m2, '-', d1, d2, ' ',
        h1, h2, ':', n1, n2, ':', s1, s2]⟩ := by
      rw [← heq]
    rw [hstr]
    have by1 : dval y1 < 10 := dval_lt_ten _ hdy1
    have by2 : dval y2 < 10 := dval_lt_ten _ hdy2
    have by3 : dval y3 < 10 := dval_lt_ten _ hdy3
    have by4 : dval y4 < 10 := dval_lt_ten _ hdy4
    have bm1 : dval m1 < 10 := dval_lt_ten _ hdm1
    have bm2 : dval m2 < 10 := dval_lt_ten _ hdm2
    have bd1 : dval d1 < 10 := dval_lt_ten _ hdd1
    have bd2 : dval d2 < 10 := dval_lt_ten _ hdd2
    have bh1 : dval h1 < 10 := dval_lt_ten _ hdh1
    have bh2 : dval h2 < 10 := dval_lt_ten _ hdh2
    have bn1 : dval n1 < 10 := dval_lt_ten _ hdn1
    have bn2 : dval n2 < 10 := dval_lt_ten _ hdn2
    have bs1 : dval s1 < 10 := dval_lt_ten _ hds1
    have bs2 : dval s2 < 10 := dval_lt_ten _ hds2
    have qy1 : (((dval y1 * 10 + dval y2) * 10 + dval y3) * 10 + dval y4) / 1000
        = dval y1 := by omega
    have qy2 : (((dval y1 * 10 + dval y2) * 10 + dval y3) * 10 + dval y4) / 100 % 10
        = dval y2 := by omega
    have qy3 : (((dval y1 * 10 + dval y2) * 10 + dval y3) * 10 + dval y4) / 10 % 10
        = dval y3 := by omega
    have qy4 : (((dval y1 * 10 + dval y2) * 10 + dval y3) * 10 + dval y4) % 10
        = dval y4 := by omega
    have qm1 : (dval m1 * 10 + dval m2) / 10 = dval m1 := by omega
    have qm2 : (dval m1 * 10 + dval m2) % 10 = dval m2 := by omega
    have qd1 : (dval d1 * 10 + dval d2) / 10 = dval d1 := by omega
    have qd2 : (dval d1 * 10 + dval d2) % 10 = dval d2 := by omega
    have qh1 : (dval h1 * 10 + dval h2) / 10 = dval h1 := by omega
    have qh2 : (dval h1 * 10 + dval h2) % 10 = dval h2 := by omega
    have qn1 : (dval n1 * 10 + dval n2) / 10 = dval n1 := by omega
    have qn2 : (dval n1 * 10 + dval n2) % 10 = dval n2 := by omega
    have qs1 : (dval s1 * 10 + dval s2) / 10 = dval s1 := by omega
    have qs2 : (dval s1 * 10 + dval s2) % 10 = dval s2 := by omega
    unfold strftimeYmdHms fmtList pad4 pad2
    rw [qy1, qy2, qy3, qy4, qm1, qm2, qd1, qd2, qh1, qh2, qn1, qn2, qs1, qs2,
      digitChar_dval _ hdy1, digitChar_dval _ hdy2, digitChar_dval _ hdy3,
      digitChar_dval _ hdy4, digitChar_dval _ hdm1, digitChar_dval _ hdm2,
      digitChar_dval _ hdd1, digitChar_dval _ hdd2, digitChar_dval _ hdh1,
      digitChar_dval _ hdh2, digitChar_dval _ hdn1, digitChar_dval _ hdn2,
      digitChar_dval _ hds1, digitChar_dval _ hds2]
    rfl

/-! ## The claims -/

/-- C1: once the assembler has extracted the link pair and the title from
the listing entry, `parse_the_data` never lets an exception escape — in
particular none raised by a resolver (all of which run after the title is
bound) — and whenever the remaining body raises, it returns the all-absent
9-field sentinel record.  (The handler's logging is outside the model.) -/
theorem parse_the_data_isolates_failures (R : Resolvers) (ep : Entry)
    (youtube_url podcast_page title : String)
    (hl : ep.links = .ok (youtube_url, podcast_page)) (ht : ep.title = .ok title) :
    (∃ record, parse_the_data R ep = .ok record) ∧
    (∀ e, parse_body R ep youtube_url podcast_page title = .error e →
      parse_the_data R ep = .ok sentinelRecord) := by
  have hred : parse_the_data R ep =
      match parse_body R ep youtube_url podcast_page title with
      | .ok record => .ok record
      | .error _ => .ok sentinelRecord := by
    simp only [parse_the_data, hl, ht]
  refine ⟨?_, ?_⟩
  · cases h : parse_body R ep youtube_url podcast_page title with
    | ok r => exact ⟨r, by rw [hred, h]⟩
    | error e => exact ⟨sentinelRecord, by rw [hred, h]⟩
  · intro e he
    rw [hred, he]

/-- Witness for C1 at a concrete entry and concrete resolvers, two of
which raise. -/
theorem parse_the_data_isolates_failures_witness :
    (∃ record, parse_the_data resolversW entryW = .ok record) ∧
    (∀ e, parse_body resolversW entryW "https://y" "https://p" "Title" = .error e →
      parse_the_data resolversW entryW = .ok sentinelRecord) :=
  parse_the_data_isolates_failures resolversW entryW "https://y" "https://p" "Title" rfl rfl

/-- C2 (code bug): with the thumbnail matching the naming convention and
the network raising on the first candidate's liveness probe, the probe's
exception escapes `get_audio_name`, because `check_url_response` does not
guard its `requests.get`; and `get_audio_file_url`'s own guard is broken —
its handler raises `UnboundLocalError` referencing the unbound `response`. -/
theorem get_audio_name_probe_exception_escapes :
    get_audio_name netDown "https://lexfridman.com/files/thumbs_ai_podcast/foo.png"
        "https://lexfridman.com/foo" = .error .requestException ∧
    get_audio_file_url netDown "https://lexfridman.com/foo" = .error .unboundLocalError :=
  ⟨rfl, rfl⟩

/-- C3 (code bug): `get_description` raises on every input — on a fetched
response it evaluates `response.status_code.ok` on an `int`
(`AttributeError`), and its unguarded `requests.get` lets network errors
propagate — instead of returning the empty string. -/
theorem get_description_raises :
    get_description (fun _ => .ok ⟨200, some ⟨["p1", "p2", "p3"], none⟩⟩)
        "https://lexfridman.com/foo" = .error .attributeError ∧
    get_description (fun _ => .error .requestException)
        "https://lexfridman.com/foo" = .error .requestException :=
  ⟨rfl, rfl⟩

/-- C4 (code bug): an API-call failure (quota/auth/network `HttpError`)
escapes `get_date_time`, since `request.execute()` runs before the `try:`
block and the `except HttpError` handler is unreachable; the other two
failure classes (zero items, wrong argument type) do return the absent
pair. -/
theorem get_date_time_api_error_escapes :
    get_date_time (.str "envkey") (fun _ _ => .error .httpError)
        (.str "abcde123456") (.str "apikey") = .error .httpError ∧
    get_date_time (.str "envkey") (fun _ _ => .ok [])
        (.str "abcde123456") (.str "apikey") = .ok .nn ∧
    get_date_time (.str "envkey") (fun _ _ => .ok [])
        (.str "abcde123456") (.int 7) = .ok .nn :=
  ⟨rfl, rfl, rfl⟩

/-- C5: re-inserting a record already produced earlier leaves the
accumulator's cardinality unchanged, and every record produced after the
duplicate still reaches the accumulator — the batch is never cut short by
a duplicate. -/
theorem accumulate_dedup_idempotent (l₁ l₂ : List Record) (r : Record) (hr : r ∈ l₁) :
    (accumulate (l₁ ++ [r])).card = (accumulate l₁).card ∧
    ∀ x ∈ l₂, x ∈ accumulate (l₁ ++ [r] ++ l₂) := by
  have hmem : r ∈ accumulate l₁ := (mem_foldl_insert l₁ ∅ r).mpr (Or.inr hr)
  refine ⟨?_, ?_⟩
  · have hsplit : accumulate (l₁ ++ [r]) = insert r (accumulate l₁) := by
      unfold accumulate
      rw [List.foldl_append]
      rfl
    rw [hsplit, Finset.card_insert_of_mem hmem]
  · intro x hx
    exact (mem_foldl_insert _ ∅ x).mpr (Or.inr (by simp [hx]))

/-- Witness for C5: a duplicate of the sentinel record, followed by one
further record that is still collected. -/
theorem accumulate_dedup_idempotent_witness :
    (accumulate ([sentinelRecord] ++ [sentinelRecord])).card =
      (accumulate [sentinelRecord]).card ∧
    ∀ x ∈ [{ sentinelRecord with title := some "A" }],
      x ∈ accumulate ([sentinelRecord] ++ [sentinelRecord] ++
        [{ sentinelRecord with title := some "A" }]) :=
  accumulate_dedup_idempotent [sentinelRecord] _ sentinelRecord (by simp)

/-- C9: a reference without a recognized (case-insensitively compared)
audio extension makes `get_duration` return exactly `0` with an empty
fetch log — no network call is performed. -/
theorem get_duration_rejects_non_mp3 (net : String → Except PyErr Bytes)
    (mp3meta : Bytes → Except PyErr ℚ) (mp3_url : String)
    (h : lowerEndsWithMp3 mp3_url = false) :
    get_duration net mp3meta mp3_url = (0, []) := by
  unfold get_duration
  rw [h]
  rfl

/-- Witness for C9 at a `.wav` reference. -/
theorem get_duration_rejects_non_mp3_witness :
    lowerEndsWithMp3 "https://example.com/audio.wav" = false ∧
    get_duration netBytesFail mp3metaFail "https://example.com/audio.wav" = (0, []) :=
  ⟨by decide, get_duration_rejects_non_mp3 netBytesFail mp3metaFail _ (by decide)⟩

/-- C10: for a fixed global key and fixed API behaviour, `get_date_time`
returns the same result for any two string values of its `api_key`
argument — the client is built from the module global, and the parameter
is only type-checked. -/
theorem get_date_time_ignores_api_key (gkey : PyVal)
    (api : PyVal → String → Except PyErr (List String)) (vid k1 k2 : PyVal)
    (h1 : k1.isStr = true) (h2 : k2.isStr = true) :
    get_date_time gkey api vid k1 = get_date_time gkey api vid k2 := by
  cases k1 with
  | str s1 =>
      cases k2 with
      | str s2 => cases vid <;> rfl
      | int n => simp [PyVal.isStr] at h2
      | pynone => simp [PyVal.isStr] at h2
  | int n => simp [PyVal.isStr] at h1
  | pynone => simp [PyVal.isStr] at h1

/-- C8 counterexample: a URL containing a well-formed delimited
11-character token immediately after a `v=` marker for which
`get_youtube_id` does not return that token — an earlier `v=` occurrence
in the prefix wins, so prefixing with arbitrary characters is not safe. -/
theorem get_youtube_id_earlier_marker_wins :
    ("v=abc?v=dQw4w9WgXcQ" : String) = "v=abc?" ++ "v=" ++ "dQw4w9WgXcQ" ∧
    ("dQw4w9WgXcQ" : String).length = 11 ∧
    ("dQw4w9WgXcQ" : String).data.all idChar = true ∧
    get_youtube_id (.str "v=abc?v=dQw4w9WgXcQ") = some "abc" ∧
    some "abc" ≠ some ("dQw4w9WgXcQ" : String) :=
  ⟨rfl, rfl, by decide, rfl, by decide⟩

/-- C8 (amended): `get_youtube_id` returns the 11-character token after
the explicit `v=` marker provided the preceding characters contain no
earlier marker match (no `v=` followed by a word character, and the prefix
does not end in `v=`) and the token is delimited on the right; non-string
inputs and strings without any marker match yield absent. -/
theorem get_youtube_id_extraction :
    (∀ p t suf : String, searchVeq p.data = none → lastTwoVeq p.data = false →
        t.length = 11 → t.data.all idChar = true →
        (∀ c, suf.data.head? = some c → idChar c = false) →
        get_youtube_id (.str (p ++ "v=" ++ t ++ suf)) = some t) ∧
    (∀ n : Int, get_youtube_id (.int n) = none) ∧
    get_youtube_id .pynone = none ∧
    (∀ s : String, searchVeq s.data = none → get_youtube_id (.str s) = none) := by
  refine ⟨?_, fun n => rfl, rfl, ?_⟩
  · intro p t suf hp hlast hlen hall hsuf
    show Option.map String.mk (searchVeq (p ++ "v=" ++ t ++ suf).data) = some t
    have hdata : (p ++ "v=" ++ t ++ suf).data
        = p.data ++ 'v' :: '=' :: (t.data ++ suf.data) := by
      simp [String.data_append]
    rw [hdata]
    cases ht : t.data with
    | nil =>
        have : t.length = 0 := by
          show t.data.length = 0
          rw [ht]
          rfl
        omega
    | cons c ts =>
        have hall2 : (c :: ts).all idChar = true := by rw [← ht]; exact hall
        have hc : idChar c = true := by
          simp only [List.all_cons, Bool.and_eq_true] at hall2
          exact hall2.1
        rw [show (c :: ts) ++ suf.data = c :: (ts ++ suf.data) from rfl]
        rw [searchVeq_append p.data c (ts ++ suf.data) hp hlast hc]
        rw [show c :: (ts ++ suf.data) = (c :: ts) ++ suf.data from rfl]
        rw [takeWhile_append_stop (c :: ts) suf.data hall2 hsuf]
        rw [← ht]
        rfl
  · intro s hs
    show Option.map String.mk (searchVeq s.data) = none
    rw [hs]
    rfl

/-- Witness for C8's amended statement at a real watch URL. -/
theorem get_youtube_id_extraction_witness :
    searchVeq ("https://www.youtube.com/watch?" : String).data = none ∧
    get_youtube_id (.str ("https://www.youtube.com/watch?" ++ "v=" ++ "dQw4w9WgXcQ" ++ ""))
      = some "dQw4w9WgXcQ" :=
  ⟨by decide, get_youtube_id_extraction.1 "https://www.youtube.com/watch?" "dQw4w9WgXcQ" ""
    (by decide) (by decide) (by decide) (by decide) (fun c hc => by simp at hc)⟩

/-- C6: for every string in the exact zero-padded format
`YYYY-MM-DD HH:MM:SS` denoting a valid date-time, `convert_to_timestamp`
decomposes it into a date/time pair whose re-rendering with the same
format recovers the original string. -/
theorem convert_to_timestamp_roundtrip (str : String)
    (hf : specExactFormat str = true) :
    ∃ d t, convert_to_timestamp str = .dt d t ∧ strftimeYmdHms d t = str := by
  obtain ⟨y, m, d, h, mi, s, hvalid, rfl⟩ := specExactFormat_decomp str hf
  exact ⟨⟨y, m, d⟩, ⟨h, mi, s⟩, convert_fmt y m d h mi s hvalid, rfl⟩

/-- Witness for C6 at the timestamp from the repository's own test. -/
theorem convert_to_timestamp_roundtrip_witness :
    specExactFormat "2022-11-04 16:09:32" = true ∧
    ∃ d t, convert_to_timestamp "2022-11-04 16:09:32" = .dt d t ∧
      strftimeYmdHms d t = "2022-11-04 16:09:32" :=
  ⟨by decide, convert_to_timestamp_roundtrip "2022-11-04 16:09:32" (by decide)⟩

/-- C7 counterexample: `"2022-1-4 5:6:7"` is not in the exact
`YYYY-MM-DD HH:MM:SS` format, yet `convert_to_timestamp` does not return
the `(0, 0)` sentinel for it — `strptime`'s field regexes also accept
non-zero-padded fields. -/
theorem convert_to_timestamp_accepts_nonpadded :
    specExactFormat "2022-1-4 5:6:7" = false ∧
    convert_to_timestamp "2022-1-4 5:6:7" = .dt ⟨2022, 1, 4⟩ ⟨5, 6, 7⟩ ∧
    convert_to_timestamp "2022-1-4 5:6:7" ≠ .zz :=
  ⟨by decide, by decide, by decide⟩

/-- C7 (amended): every string the parse rejects yields the `(0, 0)`
sentinel and nothing ever raises: in particular every ISO-8601-with-Z
rendering of in-range components and the empty string yield the sentinel,
and every input yields either the sentinel or a decomposed pair. -/
theorem convert_to_timestamp_sentinel_on_reject (y m d h mi s : Nat)
    (hy : y ≤ 9999) (hm1 : 1 ≤ m) (hm2 : m ≤ 12) (hd1 : 1 ≤ d) (hd2 : d ≤ 31)
    (hh : h ≤ 23) (hmi : mi ≤ 59) (hs : s ≤ 59) :
    convert_to_timestamp (isoZ y m d h mi s) = .zz ∧
    convert_to_timestamp "" = .zz ∧
    ∀ str : String, convert_to_timestamp str = .zz ∨
      ∃ dd tt, convert_to_timestamp str = .dt dd tt := by
  refine ⟨?_, rfl, ?_⟩
  · unfold convert_to_timestamp strptimeYmdHms isoZ
    rw [show (⟨pad4 y ++ '-' :: pad2 m ++ '-' :: pad2 d ++ 'T' :: pad2 h
        ++ ':' :: pad2 mi ++ ':' :: pad2 s ++ ['Z']⟩ : String).data
      = pad4 y ++ '-' :: pad2 m ++ '-' :: pad2 d ++ 'T' :: pad2 h
        ++ ':' :: pad2 mi ++ ':' :: pad2 s ++ ['Z'] from rfl]
    simp only [pad4, pad2, List.cons_append, List.nil_append]
    simp only [strptimeMatch, optBind_some, pY_digits y hy, pLit_cons,
      pM_digits m hm1 hm2, pD_digits d hd1 hd2, pWs_upperT, optBind_none]
  · intro str
    unfold convert_to_timestamp
    cases hp : strptimeYmdHms str with
    | some p =>
        obtain ⟨pd, pt⟩ := p
        exact Or.inr ⟨pd, pt, rfl⟩
    | none => exact Or.inl rfl

/-- Witness for C7's amended statement at the Z-suffixed timestamp from
the repository's own test. -/
theorem convert_to_timestamp_sentinel_on_reject_witness :
    isoZ 2022 11 4 16 9 32 = "2022-11-04T16:09:32Z" ∧
    (convert_to_timestamp (isoZ 2022 11 4 16 9 32) = .zz ∧
     convert_to_timestamp "" = .zz ∧
     ∀ str : String, convert_to_timestamp str = .zz ∨
       ∃ dd tt, convert_to_timestamp str = .dt dd tt) :=
  ⟨by decide, convert_to_timestamp_sentinel_on_reject 2022 11 4 16 9 32
    (by norm_num) (by norm_num) (by norm_num) (by norm_num) (by norm_num)
    (by norm_num) (by norm_num) (by norm_num)⟩

/-- Witness for C10: two different key strings, same result. -/
theorem get_date_time_ignores_api_key_witness :
    (PyVal.str "first-key").isStr = true ∧
    get_date_time (.str "envkey") apiOneItem (.str "abcde123456") (.str "first-key") =
      get_date_time (.str "envkey") apiOneItem (.str "abcde123456") (.str "second-key") :=
  ⟨rfl, get_date_time_ignores_api_key (.str "envkey") apiOneItem
    (.str "abcde123456") (.str "first-key") (.str "second-key") rfl rfl⟩

end LexPodcast
